import Mathlib

/-!
# Verification of the Vapi end-call webhook relay

Shallow embedding of the event-consolidation / single-delivery subsystem of
the `vapi-endcall-webhook` repository, together with proofs settling the
frozen claims about it.

The embedding models JavaScript values as the inductive `Js`.  JavaScript
numbers are modelled as integers (no claim involves fractional arithmetic,
NaN or signed zero).  Plain property access `x.k` throws a `TypeError`
exactly when the receiver is `null` or `undefined`; this is captured by the
fallible `getProp`.  Accesses whose receiver is syntactically guaranteed
non-null/undefined by the source (values built with `|| {}` fall-backs, or
guarded by a short-circuiting truthiness test on the same receiver) are
embedded with the total `Js.getD`, which agrees with JavaScript access on
every non-throwing input.
-/

/-- A JavaScript (JSON-ish) runtime value.  Objects are association lists of
distinct keys in insertion order, matching JS object key enumeration. -/
inductive Js where
  | null
  | undef
  | bool (b : Bool)
  | num (n : Int)
  | str (s : String)
  | obj (fields : List (String × Js))
  | arr (elems : List Js)
deriving Repr

mutual

/-- Structural (strict, `===`-style) equality test on `Js` values. -/
def Js.beq : Js → Js → Bool
  | .null, .null => true
  | .undef, .undef => true
  | .bool a, .bool b => a == b
  | .num a, .num b => a == b
  | .str a, .str b => a == b
  | .obj fs, .obj gs => Js.beqFields fs gs
  | .arr es, .arr fs => Js.beqElems es fs
  | _, _ => false

def Js.beqFields : List (String × Js) → List (String × Js) → Bool
  | [], [] => true
  | (k, v) :: r, (k', v') :: r' => k == k' && Js.beq v v' && Js.beqFields r r'
  | _, _ => false

def Js.beqElems : List Js → List Js → Bool
  | [], [] => true
  | v :: r, v' :: r' => Js.beq v v' && Js.beqElems r r'
  | _, _ => false

end

mutual

theorem Js.beq_iff : ∀ a b : Js, Js.beq a b = true ↔ a = b
  | .null, .null => by simp [Js.beq]
  | .undef, .undef => by simp [Js.beq]
  | .bool a, .bool b => by simp [Js.beq]
  | .num a, .num b => by simp [Js.beq]
  | .str a, .str b => by simp [Js.beq]
  | .obj fs, .obj gs => by
      rw [Js.beq]; rw [Js.beqFields_iff fs gs]; simp
  | .arr es, .arr fs => by
      rw [Js.beq]; rw [Js.beqElems_iff es fs]; simp
  | .null, .undef | .null, .bool _ | .null, .num _ | .null, .str _
  | .null, .obj _ | .null, .arr _
  | .undef, .null | .undef, .bool _ | .undef, .num _ | .undef, .str _
  | .undef, .obj _ | .undef, .arr _
  | .bool _, .null | .bool _, .undef | .bool _, .num _ | .bool _, .str _
  | .bool _, .obj _ | .bool _, .arr _
  | .num _, .null | .num _, .undef | .num _, .bool _ | .num _, .str _
  | .num _, .obj _ | .num _, .arr _
  | .str _, .null | .str _, .undef | .str _, .bool _ | .str _, .num _
  | .str _, .obj _ | .str _, .arr _
  | .obj _, .null | .obj _, .undef | .obj _, .bool _ | .obj _, .num _
  | .obj _, .str _ | .obj _, .arr _
  | .arr _, .null | .arr _, .undef | .arr _, .bool _ | .arr _, .num _
  | .arr _, .str _ | .arr _, .obj _ => by simp [Js.beq]

theorem Js.beqFields_iff : ∀ fs gs : List (String × Js),
    Js.beqFields fs gs = true ↔ fs = gs
  | [], [] => by simp [Js.beqFields]
  | [], _ :: _ => by simp [Js.beqFields]
  | _ :: _, [] => by simp [Js.beqFields]
  | (k, v) :: r, (k', v') :: r' => by
      rw [Js.beqFields]
      rw [Bool.and_eq_true, Bool.and_eq_true]
      rw [Js.beq_iff v v', Js.beqFields_iff r r']
      simp [Prod.ext_iff, and_assoc]

theorem Js.beqElems_iff : ∀ es fs : List Js,
    Js.beqElems es fs = true ↔ es = fs
  | [], [] => by simp [Js.beqElems]
  | [], _ :: _ => by simp [Js.beqElems]
  | _ :: _, [] => by simp [Js.beqElems]
  | v :: r, v' :: r' => by
      rw [Js.beqElems]
      rw [Bool.and_eq_true]
      rw [Js.beq_iff v v', Js.beqElems_iff r r']
      simp

end

instance : DecidableEq Js := fun a b =>
  decidable_of_iff (Js.beq a b = true) (Js.beq_iff a b)

/-- JavaScript truthiness: `null`, `undefined`, `false`, `0` and `""` are
falsy; every object and array is truthy. -/
def Js.truthy : Js → Bool
  | .null => false
  | .undef => false
  | .bool b => b
  | .num n => n != 0
  | .str s => s ≠ ""
  | .obj _ => true
  | .arr _ => true

/-- `true` unless the value is `null` or `undefined` (the receivers on which
JavaScript property access throws). -/
def Js.notNU : Js → Bool
  | .null => false
  | .undef => false
  | _ => true

/-- Total property access: what JavaScript `v[k]` evaluates to when it does
not throw.  Missing keys and primitive receivers give `undefined`. -/
def Js.getD : Js → String → Js
  | .obj fs, k => (fs.lookup k).getD Js.undef
  | _, _ => Js.undef

/-- JavaScript plain property access `v.k`: throws (`.error`) iff the
receiver is `null` or `undefined`. -/
def getProp (v : Js) (k : String) : Except Unit Js :=
  if v.notNU then .ok (v.getD k) else .error ()

/-- JavaScript optional chaining `v?.k`: `undefined` on a nullish receiver,
otherwise ordinary access. -/
def optChain (v : Js) (k : String) : Js :=
  if v.notNU then v.getD k else Js.undef

/-- JavaScript `a || b` (returns the first truthy operand, else `b`). -/
def jsOr (a b : Js) : Js := if a.truthy then a else b

/-- JavaScript `a ?? b` (returns `a` unless it is `null`/`undefined`). -/
def jsCoalesce (a b : Js) : Js := if a.notNU then a else b

/-- JavaScript object-property assignment `o[k] = v` on a field list:
overwrite in place when the key exists, else append. -/
def setField : List (String × Js) → String → Js → List (String × Js)
  | [], k, v => [(k, v)]
  | (k', v') :: rest, k, v =>
      if k' = k then (k, v) :: rest else (k', v') :: setField rest k v

/-- `Object.values` on a truthy receiver (only ever applied after a
truthiness guard in the embedded source, so `null` cannot reach it). -/
def objValues : Js → List Js
  | .obj fs => fs.map (·.2)
  | .arr es => es
  | .str s => s.toList.map (fun c => .str c.toString)
  | _ => []

/-- Substring occurrence test on character lists. -/
def subListAt (needle : List Char) : List Char → Bool
  | [] => needle.isEmpty
  | c :: rest => needle.isPrefixOf (c :: rest) || subListAt needle rest

/-- JavaScript `String.prototype.includes` (substring test). -/
def strIncludes (hay needle : String) : Bool :=
  subListAt needle.toList hay.toList

/-- `true` exactly when the value is a plain (non-array, non-null) object:
the condition `v && typeof v === "object" && !Array.isArray(v)` of the
source. -/
def isPlainObj : Js → Bool
  | .obj _ => true
  | _ => false

/-!
## `deepMerge`  (src/unnamed/part_000, lines 175–192)

```js
function deepMerge(a = {}, b = {}) {
  const out = { ...a };
  for (const [key, value] of Object.entries(b)) {
    if (value && typeof value === "object" && !Array.isArray(value) &&
        typeof a[key] === "object" && a[key] !== null && !Array.isArray(a[key])) {
      out[key] = deepMerge(a[key], value);
    } else {
      out[key] = value;
    }
  }
  return out;
}
```

Both call sites pass plain objects, and the recursive call is guarded so
both arguments are plain objects; non-object arguments are returned
unchanged in the embedding (that case is unreachable from the program). -/

mutual

/-- The recursive merge.  `a` is the original left object (the source reads
`a[key]`, not `out[key]`), `out` the accumulator, and the third argument the
remaining entries of `b`. -/
def mergeGo (a : Js) (out : List (String × Js)) : List (String × Js) → List (String × Js)
  | [] => out
  | (k, v) :: rest =>
      let nv :=
        if isPlainObj v && isPlainObj (a.getD k) then deepMerge (a.getD k) v
        else v
      mergeGo a (setField out k nv) rest

def deepMerge (a b : Js) : Js :=
  match a, b with
  | .obj af, .obj bf => .obj (mergeGo (.obj af) af bf)
  | _, _ => b

end

/-!
## `mapVapiEvent`  (src/unnamed/part_000, lines 198–323)

The normalizer of the aggregator variant: builds the cleaned payload with
only existing values, and derives a lead label / score from
`structuredOutputs`.  The only plain accesses whose receiver can be
`null`/`undefined` — and hence the only ones that can throw — are the two
on the raw `body` itself (`body.message` on line 199 and `body.type` on
line 201); they are kept in the `Except` wrapper `mapVapiEvent`, in source
evaluation order.  Every other receiver (`msg`, `callObj`, `customerObj`,
`analysisObj`) ends in a `|| {}` fall-back and is therefore never nullish,
so its accesses are embedded with the total `Js.getD`, which coincides with
JavaScript access on every non-nullish receiver.
-/

/-- The `labelToScore` table of the source (lines 296–302). -/
def labelToScore (l : String) : Option Int :=
  if l = "Excellent" then some 70
  else if l = "Fair" then some 50
  else if l = "Invalid/unreachable" then some 0
  else if l = "invalid" then some 0
  else if l = "Invalid_or_unreachable" then some 0
  else none

/-- The lead-label extraction loop (lines 276–292): scans
`Object.values(structuredOutputs)` keeping the last matching label.  All of
its accesses are guarded by short-circuiting truthiness tests in the
source, so it is total. -/
def leadLabelOf (structuredOutputs : Js) : Option String :=
  if structuredOutputs.truthy then
    (objValues structuredOutputs).foldl
      (fun acc out =>
        if out.truthy then
          match out.getD "name" with
          | .str nm =>
              if strIncludes nm.toLower "success evaluation" then
                match out.getD "result" with
                | .str s => some s.trim
                | r =>
                    if r.truthy then
                      match r.getD "label" with
                      | .str l => some l.trim
                      | _ => acc
                    else acc
              else acc
          | _ => acc
        else acc)
      none
  else none

/-- `const msg = body.message || body || {}` (line 199); `m` is the value
read from `body.message`. -/
def msgOf (body m : Js) : Js := jsOr m (jsOr body (.obj []))

/-- `const eventType = msg.type || body.type || "unknown"` (line 201);
`bodyType` is the value read from `body.type`. -/
def eventTypeOf (msg bodyType : Js) : Js :=
  jsOr (msg.getD "type") (jsOr bodyType (.str "unknown"))

/-- `const callObj = msg.call || msg.artifact?.call || {}` (line 203). -/
def callObjOf (msg : Js) : Js :=
  jsOr (msg.getD "call") (jsOr (optChain (msg.getD "artifact") "call") (.obj []))

/-- `const customerObj = msg.customer || msg.variables?.customer ||
msg.variableValues?.customer || {}` (lines 204–208). -/
def customerObjOf (msg : Js) : Js :=
  jsOr (msg.getD "customer")
    (jsOr (optChain (msg.getD "variables") "customer")
      (jsOr (optChain (msg.getD "variableValues") "customer") (.obj [])))

/-- `const structuredOutputs = msg.structuredOutputs ||
msg.artifact?.structuredOutputs || null` (lines 211–212). -/
def structuredOutputsOf (msg : Js) : Js :=
  jsOr (msg.getD "structuredOutputs")
    (jsOr (optChain (msg.getD "artifact") "structuredOutputs") .null)

/-- The `call` object built field-by-field (lines 217–230). -/
def callFieldsOf (msg callObj : Js) : List (String × Js) :=
  let cid := callObj.getD "id"
  let msStartedAt := msg.getD "startedAt"
  let coStartedAt := callObj.getD "startedAt"
  let msEndedAt := msg.getD "endedAt"
  let coEndedAt := callObj.getD "endedAt"
  let msEndedReason := msg.getD "endedReason"
  let dS := msg.getD "durationSeconds"
  let dM := msg.getD "durationMinutes"
  let dMs := msg.getD "durationMs"
  let msCost := msg.getD "cost"
  let coCost := callObj.getD "cost"
  let callF :=
    (if cid.truthy then [("id", cid)] else [])
  let callF :=
    if msStartedAt.truthy || coStartedAt.truthy then
      callF ++ [("startedAt", jsOr msStartedAt coStartedAt)] else callF
  let callF :=
    if msEndedAt.truthy || coEndedAt.truthy then
      callF ++ [("endedAt", jsOr msEndedAt coEndedAt)] else callF
  let callF :=
    if msEndedReason.truthy then callF ++ [("endedReason", msEndedReason)] else callF
  let callF :=
    if dS != .undef then callF ++ [("durationSeconds", dS)] else callF
  let callF :=
    if dM != .undef then callF ++ [("durationMinutes", dM)] else callF
  let callF :=
    if dMs != .undef then callF ++ [("durationMs", dMs)] else callF
  if msCost != .undef then callF ++ [("cost", msCost)]
  else if coCost != .undef then callF ++ [("cost", coCost)] else callF

/-- `const number = customerObj.number || customerObj.phone ||
customerObj.phoneNumber` (lines 233–234). -/
def numberOf (customerObj : Js) : Js :=
  jsOr (customerObj.getD "number")
    (jsOr (customerObj.getD "phone") (customerObj.getD "phoneNumber"))

/-- The `customer` object built field-by-field (lines 232–237). -/
def customerFieldsOf (customerObj : Js) : List (String × Js) :=
  let number := numberOf customerObj
  let cname := customerObj.getD "name"
  let cmeta := customerObj.getD "metadata"
  let custF := (if number.truthy then [("number", number)] else [])
  let custF := if cname.truthy then custF ++ [("name", cname)] else custF
  if cmeta.truthy then custF ++ [("metadata", cmeta)] else custF

/-- The `analysis` object built field-by-field (lines 239–253). -/
def analysisFieldsOf (msg analysisObj : Js) : List (String × Js) :=
  let aSum := analysisObj.getD "summary"
  let mSum := msg.getD "summary"
  let aSE := analysisObj.getD "successEvaluation"
  let mSE := msg.getD "successEvaluation"
  let aScore := analysisObj.getD "score"
  let anaF :=
    (if aSum.truthy || mSum.truthy then [("summary", jsOr aSum mSum)] else [])
  let anaF :=
    if aSE != .undef || mSE != .undef then
      anaF ++ [("successEvaluation", if aSE != .undef then aSE else mSE)]
    else anaF
  if aScore != .undef then anaF ++ [("score", aScore)] else anaF

/-- The cleaned payload before the lead block (lines 255–272): the base
object `{ eventType, call, customer, analysis, rawEventType }` plus the
conditionally attached extras. -/
def cleanedBaseFieldsOf (body m bodyType : Js) : List (String × Js) :=
  let msg := msgOf body m
  let eventType := eventTypeOf msg bodyType
  let callObj := callObjOf msg
  let analysisObj := jsOr (msg.getD "analysis") (.obj [])
  let structuredOutputs := structuredOutputsOf msg
  let scorecards := jsOr (msg.getD "scorecards") .null
  let call := Js.obj (callFieldsOf msg callObj)
  let customer := Js.obj (customerFieldsOf (customerObjOf msg))
  let analysis := Js.obj (analysisFieldsOf msg analysisObj)
  let cleanedF : List (String × Js) :=
    [("eventType", eventType), ("call", call), ("customer", customer),
     ("analysis", analysis), ("rawEventType", eventType)]
  let cleanedF :=
    if structuredOutputs.truthy then
      cleanedF ++ [("structuredOutputs", structuredOutputs)] else cleanedF
  let tr := msg.getD "transcript"
  let cleanedF := if tr.truthy then cleanedF ++ [("transcript", tr)] else cleanedF
  let rUrl := msg.getD "recordingUrl"
  let cleanedF := if rUrl.truthy then cleanedF ++ [("recordingUrl", rUrl)] else cleanedF
  let sUrl := msg.getD "stereoRecordingUrl"
  let cleanedF :=
    if sUrl.truthy then cleanedF ++ [("stereoRecordingUrl", sUrl)] else cleanedF
  if scorecards.truthy then cleanedF ++ [("scorecards", scorecards)] else cleanedF

/-- The full cleaned payload (lines 255–322): the base plus the lead
label / score block. -/
def cleanedFieldsOf (body m bodyType : Js) : List (String × Js) :=
  let structuredOutputs := structuredOutputsOf (msgOf body m)
  let cleanedF := cleanedBaseFieldsOf body m bodyType
  -- lead label / score block (lines 276-320)
  match leadLabelOf structuredOutputs with
  | some l =>
      if l ≠ "" then
        let leadObj :=
          match labelToScore l with
          | some s => Js.obj [("label", .str l), ("score", .num s)]
          | none => Js.obj [("label", .str l)]
        let base := cleanedF ++ [("lead", leadObj)]
        match labelToScore l with
        | some s =>
            -- cleaned.analysis = cleaned.analysis || {}; cleaned.analysis.score = leadScore;
            setField base "analysis"
              (match jsOr ((Js.obj base).getD "analysis") (.obj []) with
               | .obj afs => .obj (setField afs "score" (.num s))
               | other => other)
        | none => base
      else cleanedF
  | none => cleanedF

def mapVapiEvent (body : Js) : Except Unit Js := do
  -- body.message (line 199) and body.type (line 201) are the only accesses
  -- on a possibly-nullish receiver; both throw exactly when body is
  -- null/undefined, so evaluating the second unconditionally (JS
  -- short-circuits it behind msg.type) does not change the outcome.
  let m ← getProp body "message"
  let bodyType ← getProp body "type"
  return Js.obj (cleanedFieldsOf body m bodyType)

/-- Extract the value of a successful normalization (total helper for
stating concrete evaluations). -/
def okD : Except Unit Js → Js
  | .ok v => v
  | .error _ => .null

/-!
## Call aggregator  (src/unnamed/part_000, lines 160–394)

```js
const callBuffer = new Map();            // { [callId]: { data, timeoutId } }
const FALLBACK_TIMEOUT_MS = 60_000;
```

`handleVapiEvent(cleaned)` buffers by call id, merges fields, sends once on
`end-of-call-report`, and otherwise sets a fallback timeout when none is
pending.  Timers are modelled by their absolute expiry instant; deliveries
are recorded with the instant at which they are initiated.  `cleaned` is
always the (object) output of `mapVapiEvent`, so its accesses are total.
-/

def FALLBACK_TIMEOUT_MS : Nat := 60000

/-- One `callBuffer` entry `{ data, timeoutId }`; the pending timer is
represented by its absolute expiry time. -/
structure Entry where
  data : Js
  expiry : Option Nat
deriving DecidableEq, Repr

/-- The `callBuffer` map, keyed by the resolved call id (a `Js` value, as JS
`Map` keys are). -/
abbrev Buffer := List (Js × Entry)

def bufLookup (k : Js) : Buffer → Option Entry
  | [] => none
  | (k', e) :: rest => if k' = k then some e else bufLookup k rest

/-- `callBuffer.set(callId, entry)`. -/
def bufSet (k : Js) (e : Entry) : Buffer → Buffer
  | [] => [(k, e)]
  | (k', e') :: rest => if k' = k then (k, e) :: rest else (k', e') :: bufSet k e rest

/-- `callBuffer.delete(callId)`. -/
def bufErase (k : Js) (buf : Buffer) : Buffer :=
  buf.filter (fun kv => kv.1 ≠ k)

/-- A delivery attempt toward the downstream endpoint: the instant it was
initiated and the payload handed to `sendToZapier`. -/
structure Delivery where
  time : Nat
  payload : Js
deriving DecidableEq, Repr

/-- The aggregator's whole mutable state plus the record of attempted
deliveries. -/
structure SysState where
  buffer : Buffer
  delivered : List Delivery
deriving DecidableEq, Repr

def initState : SysState := ⟨[], []⟩

/-- `cleaned.call?.id || "unknown-call-id"` (line 357). -/
def callIdOfCleaned (cleaned : Js) : Js :=
  jsOr (optChain (cleaned.getD "call") "id") (.str "unknown-call-id")

/-- `eventType === "end-of-call-report"` (line 367). -/
def isTerminal (cleaned : Js) : Bool :=
  cleaned.getD "eventType" = Js.str "end-of-call-report"

/-- The body of the fallback `setTimeout` callback (lines 381–390): re-read
the buffer, return without sending when the call is gone (`already sent`),
otherwise delete the entry and send its data. -/
def fallbackFire (buf : Buffer) (callId : Js) : Buffer × Option Js :=
  match bufLookup callId buf with
  | none => (buf, none)
  | some e => (bufErase callId buf, some e.data)

/-- Fire the pending fallback timer of `callId` at instant `fireTime`,
recording the delivery it initiates (if any). -/
def fireTimer (st : SysState) (callId : Js) (fireTime : Nat) : SysState :=
  match fallbackFire st.buffer callId with
  | (buf, none) => { st with buffer := buf }
  | (buf, some d) => { buffer := buf, delivered := st.delivered ++ [⟨fireTime, d⟩] }

/-- `handleVapiEvent(cleaned)` at instant `now` (lines 356–394). -/
def handleVapiEvent (now : Nat) (st : SysState) (cleaned : Js) : SysState :=
  let callId := callIdOfCleaned cleaned
  let existing := (bufLookup callId st.buffer).getD ⟨.obj [], none⟩
  let mergedData := deepMerge existing.data cleaned
  if isTerminal cleaned then
    -- clearTimeout; callBuffer.delete(callId); await sendToZapier(mergedData)
    { buffer := bufErase callId st.buffer
      delivered := st.delivered ++ [⟨now, mergedData⟩] }
  else
    -- if (!timeoutId) timeoutId = setTimeout(cb, FALLBACK_TIMEOUT_MS);
    -- callBuffer.set(callId, { data: mergedData, timeoutId });
    let expiry :=
      match existing.expiry with
      | some e => some e
      | none => some (now + FALLBACK_TIMEOUT_MS)
    { buffer := bufSet callId ⟨mergedData, expiry⟩ st.buffer
      delivered := st.delivered }

/-- The earliest pending timer due by `bound` (`none` = no bound): the
scheduler fires timers in expiry order. -/
def earliestDue (bound : Option Nat) (buf : Buffer) : Option (Js × Nat) :=
  buf.foldl
    (fun acc kv =>
      match kv.2.expiry with
      | some ex =>
          if (match bound with | some t => decide (ex ≤ t) | none => true) then
            match acc with
            | some (_, best) => if ex < best then some (kv.1, ex) else acc
            | none => some (kv.1, ex)
          else acc
      | none => acc)
    none

/-- Fire every timer due by `bound`, in expiry order (fuelled by the buffer
size: each firing removes one entry). -/
def fireDue : Nat → Option Nat → SysState → SysState
  | 0, _, st => st
  | n + 1, bound, st =>
      match earliestDue bound st.buffer with
      | none => st
      | some (k, ex) => fireDue n bound (fireTimer st k ex)

/-- Let the event loop run up to instant `t`: every fallback timer expiring
by `t` fires. -/
def advanceTo (t : Nat) (st : SysState) : SysState :=
  fireDue st.buffer.length (some t) st

/-- Let the event loop run forever: every still-pending fallback timer
eventually fires. -/
def drain (st : SysState) : SysState :=
  fireDue st.buffer.length none st

/-- Ingest one timed event: timers due before its arrival fire first, then
`handleVapiEvent` runs. -/
def stepAt (st : SysState) (te : Nat × Js) : SysState :=
  handleVapiEvent te.1 (advanceTo te.1 st) te.2

def processEvents (st : SysState) (evs : List (Nat × Js)) : SysState :=
  evs.foldl stepAt st

/-- Run a timed trace of cleaned events from the empty buffer, then let all
remaining fallback timers fire. -/
def runTrace (evs : List (Nat × Js)) : SysState :=
  drain (processEvents initState evs)

/-!
## Webhook route  (src/unnamed/part_000, lines 397–414)

```js
app.post("/vapi-hook", async (req, res) => {
  try {
    const cleaned = mapVapiEvent(req.body);
    handleVapiEvent(cleaned).catch(err => ...);   // fire and forget
    res.status(200).json({ ok: true });
  } catch (err) {
    res.status(500).json({ ok: false, error: "Server error" });
  }
});
```

The async `handleVapiEvent` promise rejection is caught, so the response
status depends only on whether normalization throws. -/

def vapiHookStatus (body : Js) : Nat :=
  match mapVapiEvent body with
  | .ok _ => 200
  | .error _ => 500

/-!
## Enrichment client  (src/index.js, lines 295–343)

`enrichPhone` is modelled as a function of the phone number, the
`ABSTRACT_API_KEY` environment value (a JS string or `undefined`), and an
oracle for the one network interaction.  It returns the produced enrichment
record together with whether `fetch` was invoked. -/

def emptyResult : Js := .obj
  [("valid", .null), ("lineType", .null), ("carrier", .null),
   ("location", .null), ("countryName", .null)]

/-- Outcome of the single `fetch` to the Abstract API: the request may
reject, or yield a response with `ok` status whose `resp.json()` may itself
reject or produce a value. -/
inductive FetchOutcome where
  | fetchThrow
  | resp (ok : Bool) (jsonThrows : Bool) (data : Js)
deriving DecidableEq, Repr

def enrichPhone (phoneNumber apiKey : Js) (net : FetchOutcome) : Js × Bool :=
  if ¬phoneNumber.truthy then (emptyResult, false)            -- if (!phoneNumber)
  else if ¬apiKey.truthy then (emptyResult, false)            -- if (!ABSTRACT_API_KEY)
  else
    match net with
    | .fetchThrow => (emptyResult, true)                      -- catch (err)
    | .resp ok jsonThrows data =>
        if ¬ok then (emptyResult, true)                       -- if (!resp.ok)
        else if jsonThrows then (emptyResult, true)           -- await resp.json() threw
        else if ¬data.notNU then (emptyResult, true)          -- data.valid threw, caught
        else
          (.obj
            [("valid", jsCoalesce (data.getD "valid") .null),
             ("lineType", jsCoalesce (data.getD "type") .null),
             ("carrier", jsCoalesce (data.getD "carrier") .null),
             ("location", jsCoalesce (data.getD "location") .null),
             ("countryName", jsCoalesce (optChain (data.getD "country") "name") .null)],
           true)

/-- The failure modes of the network interaction: rejection, non-success
HTTP status, or a malformed (unparsable or nullish) response body. -/
def netFails : FetchOutcome → Bool
  | .fetchThrow => true
  | .resp ok jsonThrows data => ¬ok || jsonThrows || ¬data.notNU

/-!
## Dedup-set variants

### `sentCalls`  (src/index.js, lines 104–187)

One POST handler keyed on the `message.type`, suppressing re-sends through
the grow-only `sentCalls` set.  The handler returns the updated set and,
when it forwards a payload, the call id it resolved (`message.call?.id ??
null`). -/

/-- `message.call?.id ?? null` as resolved by both branches of the
handler. -/
def sentCallsId (message : Js) : Js :=
  jsCoalesce (optChain (message.getD "call") "id") .null

def sentCallsHandler (sent : List Js) (body : Js) : List Js × Option Js :=
  let message := body.getD "message"          -- const { message } = req.body || {};
  if ¬message.truthy then (sent, none)        -- if (!message) return 200
  else
    let t := message.getD "type"
    if t = Js.str "end-of-call-report" then
      let callId := sentCallsId message
      if callId.truthy ∧ callId ∈ sent then (sent, none)   -- already sent
      else
        let sent' := if callId.truthy then sent ++ [callId] else sent
        (sent', some callId)                                 -- sendToZapier(cleaned)
    else if t = Js.str "status-update" then
      if ¬(message.getD "status" = Js.str "ended") then (sent, none)
      else
        let callId := sentCallsId message
        if callId.truthy ∧ callId ∈ sent then (sent, none)
        else
          let sent' := if callId.truthy then sent ++ [callId] else sent
          (sent', some callId)                               -- sendToZapier(fallback)
    else (sent, none)

/-- Fold a request sequence through the handler, collecting the call ids of
forwarded payloads. -/
def sentCallsRun (sent : List Js) : List Js → List Js × List Js
  | [] => (sent, [])
  | body :: rest =>
      match sentCallsHandler sent body with
      | (sent', none) =>
          let (sf, ds) := sentCallsRun sent' rest
          (sf, ds)
      | (sent', some cid) =>
          let (sf, ds) := sentCallsRun sent' rest
          (sf, cid :: ds)

/-!
### `processedCalls`  (src/unnamed/part_002, lines 115–221)

The dedup slice of the `/vapi-hook` handler: event-type filter, call-id
resolution, the `hasEndedReason` dedup guard, the forward decision, and the
set update.  Enrichment and payload shaping do not affect the set or the
forward decision and are outside this slice. -/

def processedCallsId (event : Js) : Js :=
  -- const call = event.call || {}; const callId = call.id || event.callId || 'unknown-call-id';
  let call := jsOr (event.getD "call") (.obj [])
  jsOr (call.getD "id") (jsOr (event.getD "callId") (.str "unknown-call-id"))

def part002HasEndedReason (event : Js) : Bool :=
  (jsOr (event.getD "call") (.obj [])).getD "endedReason" |>.truthy

def processedCallsHandler (processedCalls : List Js) (event : Js) :
    List Js × Bool :=
  let eventType := event.getD "type"
  if eventType ≠ Js.str "status-update" ∧ eventType ≠ Js.str "end-of-call-report" then
    (processedCalls, false)                                   -- ignored
  else
    let callId := processedCallsId event
    let hasEndedReason := part002HasEndedReason event
    if hasEndedReason ∧ callId ∈ processedCalls then
      (processedCalls, false)                                 -- deduped
    else
      let shouldForward :=
        eventType = Js.str "end-of-call-report" ∨
          (eventType = Js.str "status-update" ∧ hasEndedReason)
      if ¬shouldForward then (processedCalls, false)          -- skipped
      else
        let processed' :=
          if hasEndedReason then processedCalls ++ [callId] else processedCalls
        (processed', true)                                    -- forwarded to Zapier

/-!
## Concrete inbound payloads used by the witnesses and counterexamples
(shapes taken from the spec's scenario examples). -/

/-- A terminal report for call `c1`. -/
def rawTerm : Js := .obj [("message", .obj [
  ("type", .str "end-of-call-report"),
  ("call", .obj [("id", .str "c1")]),
  ("endedReason", .str "completed")])]

/-- A status update for call `c1` carrying the customer number. -/
def rawStat : Js := .obj [("message", .obj [
  ("type", .str "status-update"),
  ("call", .obj [("id", .str "c1")]),
  ("customer", .obj [("number", .str "+15550000000")])])]

/-- A status update for call `c1` carrying `durationSeconds: 42`. -/
def rawDur : Js := .obj [("message", .obj [
  ("type", .str "status-update"),
  ("call", .obj [("id", .str "c1")]),
  ("durationSeconds", .num 42)])]

/-- A status update for call `c1` carrying an explicit `durationSeconds:
null`. -/
def rawNullDur : Js := .obj [("message", .obj [
  ("type", .str "status-update"),
  ("call", .obj [("id", .str "c1")]),
  ("durationSeconds", .null)])]

/-- A status update with no call id at all. -/
def rawNoId : Js := .obj [("message", .obj [
  ("type", .str "status-update"),
  ("customer", .obj [("number", .str "+15551230000")])])]

/-- A body whose `customer` parent exists but lacks the number, while
`variables.customer.number` holds one. -/
def rawParentNoNumber : Js := .obj [("message", .obj [
  ("customer", .obj [("name", .str "X")]),
  ("variables", .obj [("customer", .obj [("number", .str "+15551234567")])])])]

/-- Normalized (cleaned) forms of the above, as `handleVapiEvent` receives
them. -/
def cTerm : Js := okD (mapVapiEvent rawTerm)

def cStat : Js := okD (mapVapiEvent rawStat)

def cNoId : Js := okD (mapVapiEvent rawNoId)

/-- part_002-shaped events (unwrapped): a final report for call `c9` with an
ended reason, and a duplicate final report without one. -/
def evFirst : Js := .obj [("type", .str "end-of-call-report"),
  ("call", .obj [("id", .str "c9"), ("endedReason", .str "completed")])]

def evDup : Js := .obj [("type", .str "end-of-call-report"),
  ("call", .obj [("id", .str "c9")])]

/-- The customer-number resolution rule the normalizer actually implements
(the amended form of claim C8): a customer *parent* object is selected
first-truthy-wins across `customer`, `variables.customer`,
`variableValues.customer`, and only then is the number read from that one
parent, first-truthy-wins across `number`, `phone`, `phoneNumber`; a falsy
result leaves the field absent (`undefined`). -/
def resolvedNumberSpec (body : Js) : Js :=
  let msg := jsOr (body.getD "message") (jsOr body (.obj []))
  let parent :=
    jsOr (msg.getD "customer")
      (jsOr (optChain (msg.getD "variables") "customer")
        (jsOr (optChain (msg.getD "variableValues") "customer") (.obj [])))
  let n := jsOr (parent.getD "number")
    (jsOr (parent.getD "phone") (parent.getD "phoneNumber"))
  if n.truthy then n else Js.undef

/-!
## Helper lemmas
-/

theorem Js.notNU_of_truthy {v : Js} (h : v.truthy = true) : v.notNU = true := by
  cases v <;> simp_all [Js.truthy, Js.notNU]

theorem notNU_jsOr {a b : Js} (hb : b.notNU = true) : (jsOr a b).notNU = true := by
  unfold jsOr
  by_cases h : a.truthy = true
  · simp [h, Js.notNU_of_truthy h]
  · simp [h, hb]

theorem notNU_obj (fs : List (String × Js)) : (Js.obj fs).notNU = true := rfl

theorem getProp_ok {v : Js} (h : v.notNU = true) (k : String) :
    getProp v k = .ok (v.getD k) := by
  simp [getProp, h]

theorem exceptBind_ok {α β : Type} (a : α) (f : α → Except Unit β) :
    (Except.ok a : Except Unit α) >>= f = f a := rfl

theorem bufLookup_bufSet_self (k : Js) (e : Entry) :
    ∀ buf : Buffer, bufLookup k (bufSet k e buf) = some e := by
  intro buf
  induction buf with
  | nil => simp [bufSet, bufLookup]
  | cons kv rest ih =>
      obtain ⟨k', e'⟩ := kv
      by_cases h : k' = k
      · simp [bufSet, bufLookup, h]
      · simp [bufSet, bufLookup, h, ih]

theorem bufErase_single (k : Js) (e : Entry) : bufErase k [(k, e)] = [] := by
  simp [bufErase]

theorem advanceTo_nil (t : Nat) (del : List Delivery) :
    advanceTo t ⟨[], del⟩ = ⟨[], del⟩ := rfl

theorem drain_nil (del : List Delivery) : drain ⟨[], del⟩ = ⟨[], del⟩ := rfl

theorem earliestDue_single_not_due {t ex : Nat} (h : t < ex) (k : Js) (d : Js) :
    earliestDue (some t) [(k, ⟨d, some ex⟩)] = none := by
  simp [earliestDue, Nat.not_le_of_lt h]

theorem advanceTo_single_not_due {t ex : Nat} (h : t < ex) (k : Js) (d : Js)
    (del : List Delivery) :
    advanceTo t ⟨[(k, ⟨d, some ex⟩)], del⟩ = ⟨[(k, ⟨d, some ex⟩)], del⟩ := by
  simp [advanceTo, fireDue, earliestDue_single_not_due h]

theorem drain_single (k : Js) (d : Js) (ex : Nat) (del : List Delivery) :
    drain ⟨[(k, ⟨d, some ex⟩)], del⟩ = ⟨[], del ++ [⟨ex, d⟩]⟩ := by
  simp [drain, fireDue, earliestDue, fireTimer, fallbackFire, bufLookup,
    bufErase_single]

theorem handleVapiEvent_nonterminal_empty {e k : Js} (t : Nat)
    (hid : callIdOfCleaned e = k) (hnt : isTerminal e = false)
    (del : List Delivery) :
    handleVapiEvent t ⟨[], del⟩ e =
      ⟨[(k, ⟨deepMerge (.obj []) e, some (t + FALLBACK_TIMEOUT_MS)⟩)], del⟩ := by
  simp [handleVapiEvent, hid, hnt, bufLookup, bufSet]

theorem handleVapiEvent_nonterminal_single {e k : Js} (t : Nat)
    (hid : callIdOfCleaned e = k) (hnt : isTerminal e = false)
    (d : Js) (ex : Nat) (del : List Delivery) :
    handleVapiEvent t ⟨[(k, ⟨d, some ex⟩)], del⟩ e =
      ⟨[(k, ⟨deepMerge d e, some ex⟩)], del⟩ := by
  simp [handleVapiEvent, hid, hnt, bufLookup, bufSet]

theorem handleVapiEvent_terminal_empty {e k : Js} (t : Nat)
    (hid : callIdOfCleaned e = k) (ht : isTerminal e = true)
    (del : List Delivery) :
    handleVapiEvent t ⟨[], del⟩ e =
      ⟨[], del ++ [⟨t, deepMerge (.obj []) e⟩]⟩ := by
  simp [handleVapiEvent, hid, ht, bufLookup, bufErase]

theorem handleVapiEvent_terminal_single {e k : Js} (t : Nat)
    (hid : callIdOfCleaned e = k) (ht : isTerminal e = true)
    (d : Js) (oex : Option Nat) (del : List Delivery) :
    handleVapiEvent t ⟨[(k, ⟨d, oex⟩)], del⟩ e =
      ⟨[], del ++ [⟨t, deepMerge d e⟩]⟩ := by
  simp [handleVapiEvent, hid, ht, bufLookup, bufErase]

theorem processEvents_cons (st : SysState) (a : Nat × Js) (l : List (Nat × Js)) :
    processEvents st (a :: l) = processEvents (stepAt st a) l := rfl

theorem processEvents_append (st : SysState) (l l' : List (Nat × Js)) :
    processEvents st (l ++ l') = processEvents (processEvents st l) l' := by
  simp [processEvents, List.foldl_append]

/-- Invariant: while only non-terminal events for call `k` arrive, all
strictly before the pending fallback expiry `ex`, the buffer keeps exactly
the one entry for `k`, its timer expiry never moves, and nothing is
delivered. -/
theorem processEvents_nonterminal (k : Js) (ex : Nat) :
    ∀ (evs : List (Nat × Js)) (d : Js) (del : List Delivery),
      (∀ p ∈ evs, callIdOfCleaned p.2 = k ∧ isTerminal p.2 = false ∧ p.1 < ex) →
      ∃ d', processEvents ⟨[(k, ⟨d, some ex⟩)], del⟩ evs =
        ⟨[(k, ⟨d', some ex⟩)], del⟩ := by
  intro evs
  induction evs with
  | nil => intro d del _; exact ⟨d, rfl⟩
  | cons p rest ih =>
      intro d del hall
      obtain ⟨hid, hnt, hlt⟩ := hall p (List.mem_cons_self p rest)
      rw [processEvents_cons]
      have hstep : stepAt ⟨[(k, ⟨d, some ex⟩)], del⟩ p =
          ⟨[(k, ⟨deepMerge d p.2, some ex⟩)], del⟩ := by
        simp [stepAt, advanceTo_single_not_due hlt,
          handleVapiEvent_nonterminal_single p.1 hid hnt]
      rw [hstep]
      exact ih (deepMerge d p.2) del (fun q hq => hall q (List.mem_cons_of_mem p hq))

theorem lookup_setField_ne {k k' : String} (h : k' ≠ k) (v : Js) :
    ∀ l : List (String × Js), (setField l k' v).lookup k = l.lookup k := by
  intro l
  induction l with
  | nil => simp [setField, List.lookup, beq_eq_false_iff_ne.mpr (Ne.symm h)]
  | cons kv rest ih =>
      obtain ⟨k₀, v₀⟩ := kv
      by_cases h₀ : k₀ = k'
      · subst h₀
        simp [setField, List.lookup, beq_eq_false_iff_ne.mpr (Ne.symm h)]
      · simp [setField, List.lookup, h₀, ih]

/-- Keys that the incoming entries do not mention are left untouched by the
merge loop. -/
theorem lookup_mergeGo_not_mem {k : String} (a : Js) :
    ∀ (bf : List (String × Js)) (out : List (String × Js)),
      bf.lookup k = none → (mergeGo a out bf).lookup k = out.lookup k := by
  intro bf
  induction bf with
  | nil => intro out _; rfl
  | cons kv rest ih =>
      intro out hnone
      obtain ⟨k', v⟩ := kv
      rw [List.lookup] at hnone
      by_cases hk : (k == k') = true
      · simp [hk] at hnone
      · simp only [hk, Bool.false_eq_true, if_false] at hnone
        have hne : k' ≠ k := fun h => by simp [h] at hk
        rw [mergeGo]
        rw [ih _ hnone]
        exact lookup_setField_ne hne _ out


theorem Js.getD_obj (fs : List (String × Js)) (k : String) :
    (Js.obj fs).getD k = (fs.lookup k).getD .undef := rfl

theorem lookup_append_some {k : String} {L : List (String × Js)} {v : Js}
    (h : L.lookup k = some v) (l' : List (String × Js)) :
    (L ++ l').lookup k = some v := by
  induction L with
  | nil => simp [List.lookup] at h
  | cons kv rest ih =>
      rw [List.cons_append, List.lookup] at *
      split at h
      · exact h
      · exact ih h

theorem lookup_ite_append {k : String} {v : Js} (c : Prop) [Decidable c]
    {L : List (String × Js)} (x : String × Js) (h : L.lookup k = some v) :
    (if c then L ++ [x] else L).lookup k = some v := by
  split
  · exact lookup_append_some h _
  · exact h

/-- The `customer` member of the cleaned base payload. -/
theorem lookup_base_customer (body m bodyType : Js) :
    (cleanedBaseFieldsOf body m bodyType).lookup "customer"
      = some (Js.obj (customerFieldsOf (customerObjOf (msgOf body m)))) := by
  simp only [cleanedBaseFieldsOf]
  apply lookup_ite_append
  apply lookup_ite_append
  apply lookup_ite_append
  apply lookup_ite_append
  apply lookup_ite_append
  simp [List.lookup]

/-- The lead block never touches the `customer` member. -/
theorem lookup_cleanedFields_customer (body m bodyType : Js) :
    (cleanedFieldsOf body m bodyType).lookup "customer"
      = some (Js.obj (customerFieldsOf (customerObjOf (msgOf body m)))) := by
  simp only [cleanedFieldsOf]
  split
  · split
    · split
      · rw [lookup_setField_ne (by decide)]
        exact lookup_append_some (lookup_base_customer body m bodyType) _
      · exact lookup_append_some (lookup_base_customer body m bodyType) _
    · exact lookup_base_customer body m bodyType
  · exact lookup_base_customer body m bodyType

/-- The `number` member of the built customer object is the resolved number
when truthy, else absent. -/
theorem getD_customerFields_number (co : Js) :
    (Js.obj (customerFieldsOf co)).getD "number"
      = if (numberOf co).truthy then numberOf co else .undef := by
  simp only [customerFieldsOf]
  by_cases h1 : (numberOf co).truthy = true <;>
  by_cases h2 : (co.getD "name").truthy = true <;>
  by_cases h3 : (co.getD "metadata").truthy = true <;>
    simp [h1, h2, h3, Js.getD_obj, List.lookup]

theorem Js.notNU_of_ne {body : Js} (h1 : body ≠ .null) (h2 : body ≠ .undef) :
    body.notNU = true := by
  cases body <;> simp_all [Js.notNU]

/-- Normalization succeeds on every body that is not `null`/`undefined`:
the two raw-body accesses are the only fallible operations. -/
theorem mapVapiEvent_ok {body : Js} (h : body.notNU = true) :
    ∃ v, mapVapiEvent body = .ok v := by
  rw [mapVapiEvent, getProp_ok h, exceptBind_ok, getProp_ok h, exceptBind_ok]
  exact ⟨_, rfl⟩

/-- The customer number the normalizer emits is exactly the parent-first
resolution of `resolvedNumberSpec`. -/
theorem mapVapiEvent_customer_number {body : Js} (h : body.notNU = true) :
    ∃ v, mapVapiEvent body = .ok v ∧
      (v.getD "customer").getD "number" = resolvedNumberSpec body := by
  rw [mapVapiEvent, getProp_ok h, exceptBind_ok, getProp_ok h, exceptBind_ok]
  refine ⟨_, rfl, ?_⟩
  rw [Js.getD_obj, lookup_cleanedFields_customer, Option.getD_some,
    getD_customerFields_number]
  rfl

theorem sentCallsHandler_subset (sent : List Js) (body : Js) :
    sent ⊆ (sentCallsHandler sent body).1 := by
  simp only [sentCallsHandler]
  split_ifs
  all_goals simp [List.subset_append_left]

/-- A truthy call id already in the set is never the id of a forwarded
payload: both handler branches check the set first. -/
theorem sentCallsHandler_suppress (body : Js) {sent : List Js} {cid : Js}
    (htr : cid.truthy = true) (hmem : cid ∈ sent) :
    (sentCallsHandler sent body).2 ≠ some cid := by
  simp only [sentCallsHandler]
  split_ifs
  all_goals intro hc
  all_goals simp_all

/-- Lifetime single-delivery for the `sentCalls` variant: once a truthy id
is in the set it never again appears among forwarded call ids, over any
sequence of further requests. -/
theorem sentCallsRun_no_redelivery :
    ∀ (bodies : List Js) (sent : List Js) (cid : Js),
      cid.truthy = true → cid ∈ sent → cid ∉ (sentCallsRun sent bodies).2 := by
  intro bodies
  induction bodies with
  | nil => intro sent cid _ _; simp [sentCallsRun]
  | cons b rest ih =>
      intro sent cid htr hmem
      have hsub := sentCallsHandler_subset sent b
      have hsup := sentCallsHandler_suppress b htr hmem
      rw [sentCallsRun]
      cases hh : sentCallsHandler sent b with
      | mk sent' out =>
          rw [hh] at hsub hsup
          cases out with
          | none =>
              simp only []
              exact fun hc => ih sent' cid htr (hsub hmem) (by simpa using hc)
          | some c =>
              simp only []
              intro hc
              rcases List.mem_cons.mp (by simpa using hc) with hceq | hcm
              · exact hsup (by rw [hceq])
              · exact ih sent' cid htr (hsub hmem) hcm

theorem processedCallsHandler_subset (s : List Js) (ev : Js) :
    s ⊆ (processedCallsHandler s ev).1 := by
  simp only [processedCallsHandler]
  split_ifs
  all_goals simp [List.subset_append_left]

/-- The part_002 dedup guard works — but only for events that themselves
carry an `endedReason`. -/
theorem processedCallsHandler_suppress {s : List Js} {ev : Js}
    (hmem : processedCallsId ev ∈ s) (her : part002HasEndedReason ev = true) :
    (processedCallsHandler s ev).2 = false := by
  simp only [processedCallsHandler]
  split_ifs
  all_goals simp_all

/-!
## Claims
-/

/-- Claim C1, counterexample: a duplicate terminal report arriving 1s after
the first has been flushed is *not* a no-op — the buffer entry was deleted
on the first flush, so the duplicate starts a fresh aggregation and a
second delivery is attempted for the same call id (two deliveries for a
two-event sequence sharing one CallIdentity). -/
theorem C1_counterexample :
    ((runTrace [(0, cTerm), (1000, cTerm)]).delivered).length = 2 ∧
    ((runTrace [(0, cTerm), (1000, cTerm)]).delivered).map
        (fun d => callIdOfCleaned d.payload) = [.str "c1", .str "c1"] := by
  constructor <;> rfl

/-- Claim C1 (amended): for a sequence of N ≥ 1 events sharing one
CallIdentity in which a terminal report occurs at most as the *last* event
and every later event arrives before the fallback timer set by the first
event expires, exactly one delivery is attempted (terminal flush or
fallback).  Without those restrictions the code can deliver twice — see
`C1_counterexample`. -/
theorem C1_single_delivery_amended (k : Js) (t1 : Nat) (e1 : Js)
    (rest : List (Nat × Js))
    (hall : ∀ p ∈ (t1, e1) :: rest, callIdOfCleaned p.2 = k)
    (hdrop : ∀ p ∈ ((t1, e1) :: rest).dropLast, isTerminal p.2 = false)
    (htime : ∀ p ∈ rest, p.1 < t1 + FALLBACK_TIMEOUT_MS) :
    ((runTrace ((t1, e1) :: rest)).delivered).length = 1 := by
  have hid1 : callIdOfCleaned e1 = k := hall _ (List.mem_cons_self _ _)
  rcases List.eq_nil_or_concat rest with hr | ⟨mid, last, hr⟩
  · subst hr
    by_cases ht : isTerminal e1 = true
    · rw [runTrace, processEvents_cons]
      have hstep : stepAt initState (t1, e1) = ⟨[], [⟨t1, deepMerge (.obj []) e1⟩]⟩ := by
        rw [stepAt]
        show handleVapiEvent t1 (advanceTo t1 ⟨[], []⟩) e1 = _
        rw [advanceTo_nil, handleVapiEvent_terminal_empty t1 hid1 ht]
        rfl
      rw [hstep]
      show (drain ⟨[], _⟩).delivered.length = 1
      rw [drain_nil]
      rfl
    · rw [Bool.not_eq_true] at ht
      rw [runTrace, processEvents_cons]
      have hstep : stepAt initState (t1, e1) =
          ⟨[(k, ⟨deepMerge (.obj []) e1, some (t1 + FALLBACK_TIMEOUT_MS)⟩)], []⟩ := by
        rw [stepAt]
        show handleVapiEvent t1 (advanceTo t1 ⟨[], []⟩) e1 = _
        rw [advanceTo_nil, handleVapiEvent_nonterminal_empty t1 hid1 ht]
      rw [hstep]
      show (drain ⟨[(k, ⟨deepMerge (.obj []) e1, some (t1 + FALLBACK_TIMEOUT_MS)⟩)], []⟩).delivered.length = 1
      rw [drain_single]
      rfl
  · rw [List.concat_eq_append] at hr
    subst hr
    obtain ⟨tl, el⟩ := last
    have hdl : ((t1, e1) :: (mid ++ [(tl, el)])).dropLast = (t1, e1) :: mid := by
      rw [← List.cons_append, List.dropLast_concat]
    have hnt1 : isTerminal e1 = false :=
      hdrop (t1, e1) (by rw [hdl]; exact List.mem_cons_self _ _)
    have hstep : stepAt initState (t1, e1) =
        ⟨[(k, ⟨deepMerge (.obj []) e1, some (t1 + FALLBACK_TIMEOUT_MS)⟩)], []⟩ := by
      rw [stepAt]
      show handleVapiEvent t1 (advanceTo t1 ⟨[], []⟩) e1 = _
      rw [advanceTo_nil, handleVapiEvent_nonterminal_empty t1 hid1 hnt1]
    have hmid : ∀ p ∈ mid, callIdOfCleaned p.2 = k ∧ isTerminal p.2 = false ∧
        p.1 < t1 + FALLBACK_TIMEOUT_MS := by
      intro p hp
      exact ⟨hall p (List.mem_cons_of_mem _ (List.mem_append_left _ hp)),
        hdrop p (by rw [hdl]; exact List.mem_cons_of_mem _ hp),
        htime p (List.mem_append_left _ hp)⟩
    obtain ⟨d', hd'⟩ := processEvents_nonterminal k (t1 + FALLBACK_TIMEOUT_MS) mid
      (deepMerge (.obj []) e1) [] hmid
    have hidl : callIdOfCleaned el = k :=
      hall (tl, el) (List.mem_cons_of_mem _ (List.mem_append_right _ (by simp)))
    have htl : tl < t1 + FALLBACK_TIMEOUT_MS :=
      htime (tl, el) (List.mem_append_right _ (by simp))
    rw [runTrace, processEvents_cons, hstep, processEvents_append, hd']
    have hlast : processEvents ⟨[(k, ⟨d', some (t1 + FALLBACK_TIMEOUT_MS)⟩)], []⟩
        [(tl, el)] = stepAt ⟨[(k, ⟨d', some (t1 + FALLBACK_TIMEOUT_MS)⟩)], []⟩ (tl, el) := rfl
    rw [hlast, stepAt]
    show (drain (handleVapiEvent tl (advanceTo tl ⟨[(k, ⟨d', some (t1 + FALLBACK_TIMEOUT_MS)⟩)], []⟩) el)).delivered.length = 1
    rw [advanceTo_single_not_due htl]
    by_cases htel : isTerminal el = true
    · rw [handleVapiEvent_terminal_single tl hidl htel, drain_nil]
      rfl
    · rw [Bool.not_eq_true] at htel
      rw [handleVapiEvent_nonterminal_single tl hidl htel, drain_single]
      rfl

/-- Witness for `C1_single_delivery_amended`: status update then terminal
report 5s later for call `c1` yields exactly one delivery. -/
theorem C1_single_delivery_witness :
    ((runTrace [(0, cStat), (5000, cTerm)]).delivered).length = 1 :=
  C1_single_delivery_amended (.str "c1") 0 cStat [(5000, cTerm)]
    (by decide) (by decide) (by decide)

/-- Claim C2, counterexample: an incoming event can blank a previously
populated field.  A status update carrying an explicit `durationSeconds:
null` passes the normalizer's `!== undefined` guard, so the merged record's
populated `call.durationSeconds` (42 from an earlier event) is overwritten
with `null` — the incoming value is empty, yet the field changes. -/
theorem C2_counterexample :
    ((deepMerge (deepMerge (.obj []) (okD (mapVapiEvent rawDur)))
        (okD (mapVapiEvent rawNullDur))).getD "call").getD "durationSeconds"
      = .null ∧
    ((deepMerge (.obj []) (okD (mapVapiEvent rawDur))).getD "call").getD
        "durationSeconds" = .num 42 := by
  constructor <;> rfl

/-- Claim C2 (amended): the merge fold is monotone per *present key*, not
per non-empty value — a key the incoming event does not carry at all never
changes the merged record, but a carried key always overwrites, even with
`null` (see `C2_counterexample`; the normalizer emits explicit nulls for
`durationSeconds`/`durationMinutes`/`durationMs`/`cost`/`successEvaluation`
/`score` guarded only by `!== undefined`). -/
theorem C2_merge_monotone_amended (af bf : List (String × Js)) (k : String)
    (h : bf.lookup k = none) :
    (deepMerge (.obj af) (.obj bf)).getD k = (Js.obj af).getD k := by
  show (Js.obj (mergeGo (.obj af) af bf)).getD k = (Js.obj af).getD k
  rw [Js.getD_obj, Js.getD_obj, lookup_mergeGo_not_mem _ _ _ h]

/-- Witness for `C2_merge_monotone_amended`: merging an event that does not
carry `x` leaves the accumulated `x` unchanged. -/
theorem C2_merge_monotone_witness :
    (deepMerge (.obj [("x", .num 1)]) (.obj [("y", .num 2)])).getD "x"
      = (Js.obj [("x", .num 1)]).getD "x" :=
  C2_merge_monotone_amended [("x", .num 1)] [("y", .num 2)] "x" (by decide)

/-- Claim C3, counterexample: the fallback timer is *not* reset on later
events (`if (!timeoutId)` only creates a timer when none is pending), so
with status updates at 0s and 30s the delivery fires at 60s — earlier than
the 30s + 60s window the claim requires after the most recent event. -/
theorem C3_counterexample :
    ((runTrace [(0, cStat), (30000, cStat)]).delivered).map (·.time) = [60000] ∧
    60000 < 30000 + FALLBACK_TIMEOUT_MS := by
  constructor
  · rfl
  · decide

/-- Claim C3 (amended): for a call with no terminal report whose events all
arrive within the fallback window of the *first* event, exactly one
delivery is attempted, at exactly `firstEventTime + FALLBACK_TIMEOUT_MS` —
the window is measured from the first buffering event, not from the most
recent one. -/
theorem C3_fallback_timing_amended (k : Js) (t1 : Nat) (e1 : Js)
    (rest : List (Nat × Js))
    (hid : callIdOfCleaned e1 = k) (hnt : isTerminal e1 = false)
    (hrest : ∀ p ∈ rest, callIdOfCleaned p.2 = k ∧ isTerminal p.2 = false ∧
      p.1 < t1 + FALLBACK_TIMEOUT_MS) :
    ∃ payload, (runTrace ((t1, e1) :: rest)).delivered
      = [⟨t1 + FALLBACK_TIMEOUT_MS, payload⟩] := by
  have hstep : stepAt initState (t1, e1) =
      ⟨[(k, ⟨deepMerge (.obj []) e1, some (t1 + FALLBACK_TIMEOUT_MS)⟩)], []⟩ := by
    rw [stepAt]
    show handleVapiEvent t1 (advanceTo t1 ⟨[], []⟩) e1 = _
    rw [advanceTo_nil, handleVapiEvent_nonterminal_empty t1 hid hnt]
  rw [runTrace, processEvents_cons, hstep]
  obtain ⟨d', hd'⟩ := processEvents_nonterminal k (t1 + FALLBACK_TIMEOUT_MS) rest
    (deepMerge (.obj []) e1) [] hrest
  rw [hd', drain_single]
  exact ⟨d', rfl⟩

/-- Witness for `C3_fallback_timing_amended`: two status updates at 0s and
1s produce one delivery at exactly the 60s mark. -/
theorem C3_fallback_timing_witness :
    ∃ payload, (runTrace [(0, cStat), (1000, cStat)]).delivered
      = [⟨0 + FALLBACK_TIMEOUT_MS, payload⟩] :=
  C3_fallback_timing_amended (.str "c1") 0 cStat [(1000, cStat)]
    (by decide) (by decide) (by decide)

/-- Claim C4, counterexample: an id-less non-terminal event is *not*
delivered immediately and *does* enter the aggregation state machine — it
is buffered under the shared sentinel key `"unknown-call-id"` with a
fallback timer, and nothing is delivered. -/
theorem C4_counterexample :
    (handleVapiEvent 0 initState cNoId).delivered = [] ∧
    bufLookup (.str "unknown-call-id") (handleVapiEvent 0 initState cNoId).buffer
      = some ⟨deepMerge (.obj []) cNoId, some FALLBACK_TIMEOUT_MS⟩ := by
  constructor <;> rfl

/-- Claim C4 (amended): an event with no (truthy) CallIdentity is assigned
the sentinel id `"unknown-call-id"` and aggregated under that shared key
like any other call: if it is non-terminal it causes no delivery and is
buffered with a pending fallback timer (and may later merge with other
id-less events under the same key). -/
theorem C4_no_id_amended (t : Nat) (st : SysState) (cleaned : Js)
    (hid : (optChain (cleaned.getD "call") "id").truthy = false)
    (hnt : isTerminal cleaned = false) :
    callIdOfCleaned cleaned = .str "unknown-call-id" ∧
    (handleVapiEvent t st cleaned).delivered = st.delivered ∧
    ∃ d ex, bufLookup (.str "unknown-call-id") (handleVapiEvent t st cleaned).buffer
      = some ⟨d, some ex⟩ := by
  have hcid : callIdOfCleaned cleaned = .str "unknown-call-id" := by
    simp [callIdOfCleaned, jsOr, hid]
  refine ⟨hcid, ?_, ?_⟩
  · simp [handleVapiEvent, hnt]
  · cases hE : ((bufLookup (Js.str "unknown-call-id") st.buffer).getD
        ⟨.obj [], none⟩).expiry with
    | none =>
        refine ⟨deepMerge ((bufLookup (Js.str "unknown-call-id") st.buffer).getD
          ⟨Js.obj [], none⟩).data cleaned, t + FALLBACK_TIMEOUT_MS, ?_⟩
        simp only [handleVapiEvent, hnt, hcid, Bool.false_eq_true, if_false, hE]
        exact bufLookup_bufSet_self _ _ _
    | some e0 =>
        refine ⟨deepMerge ((bufLookup (Js.str "unknown-call-id") st.buffer).getD
          ⟨Js.obj [], none⟩).data cleaned, e0, ?_⟩
        simp only [handleVapiEvent, hnt, hcid, Bool.false_eq_true, if_false, hE]
        exact bufLookup_bufSet_self _ _ _

/-- Witness for `C4_no_id_amended`: the concrete id-less status update is
buffered under the sentinel key with no delivery. -/
theorem C4_no_id_witness :
    callIdOfCleaned cNoId = .str "unknown-call-id" ∧
    (handleVapiEvent 0 initState cNoId).delivered = initState.delivered ∧
    ∃ d ex, bufLookup (.str "unknown-call-id") (handleVapiEvent 0 initState cNoId).buffer
      = some ⟨d, some ex⟩ :=
  C4_no_id_amended 0 initState cNoId (by decide) (by decide)

/-- Claim C5 (confirmed): when the fallback timer callback fires for a
CallIdentity whose aggregation state has already been flushed and removed
from the buffer, it performs no delivery and changes nothing — the
`if (!buffered) return` guard inside the callback, not timer cancellation,
is the authoritative gate against late double delivery. -/
theorem C5_flush_guard (st : SysState) (k : Js) (ex : Nat)
    (h : bufLookup k st.buffer = none) : fireTimer st k ex = st := by
  simp [fireTimer, fallbackFire, h]

/-- Witness for `C5_flush_guard`: firing a timer for a call absent from the
buffer is a no-op. -/
theorem C5_flush_guard_witness : fireTimer initState (.str "c1") 5 = initState :=
  C5_flush_guard initState (.str "c1") 5 rfl

/-- Claim C6, counterexample: the normalizer is *not* total on
`null`/`undefined` bodies — `body.message` throws a `TypeError` on a `null`
body, so the error escapes `mapVapiEvent`. -/
theorem C6_counterexample : mapVapiEvent Js.null = .error () := rfl

/-- Claim C6 (amended): for every input body that is not `null`/`undefined`
— which is every body the JSON body parser can produce — normalization
succeeds and returns a value; every missing or malformed substructure
resolves to an absent field rather than an escaping error.  Only a
`null`/`undefined` body makes the normalizer throw (`C6_counterexample`). -/
theorem C6_normalizer_total_amended (body : Js) (h1 : body ≠ .null)
    (h2 : body ≠ .undef) : ∃ v, mapVapiEvent body = .ok v :=
  mapVapiEvent_ok (Js.notNU_of_ne h1 h2)

/-- Witness for `C6_normalizer_total_amended`: the empty object body
normalizes successfully. -/
theorem C6_normalizer_total_witness : ∃ v, mapVapiEvent (Js.obj []) = .ok v :=
  C6_normalizer_total_amended (Js.obj []) (by decide) (by decide)

/-- Claim C7 (confirmed): enrichment returns the empty result immediately —
without invoking `fetch` — whenever the phone number or the service
credential is falsy, and on every network failure mode (rejection,
non-success HTTP status, unparsable or nullish response body) it returns
the empty result instead of propagating an error. -/
theorem C7_enrichment_never_fails (phone key : Js) (net : FetchOutcome) :
    ((phone.truthy = false ∨ key.truthy = false) →
      enrichPhone phone key net = (emptyResult, false)) ∧
    (netFails net = true → (enrichPhone phone key net).1 = emptyResult) := by
  constructor
  · intro h
    rcases h with h | h
    · simp [enrichPhone, h]
    · by_cases hp : phone.truthy = true <;> simp [enrichPhone, h, hp]
  · intro h
    by_cases hp : phone.truthy = true
    · by_cases hk : key.truthy = true
      · cases net with
        | fetchThrow => simp [enrichPhone, hp, hk]
        | resp ok jt data =>
            simp only [netFails] at h
            by_cases ho : ok = true <;> by_cases hj : jt = true <;>
              by_cases hd : data.notNU = true <;>
              simp_all [enrichPhone]
      · simp [enrichPhone, hp, hk]
    · simp [enrichPhone, hp]

/-- Witness for `C7_enrichment_never_fails`: a `null` phone yields the empty
result with no network call, and a network rejection yields the empty
result. -/
theorem C7_enrichment_witness :
    enrichPhone Js.null (.str "key") .fetchThrow = (emptyResult, false) ∧
    (enrichPhone (.str "+15551234567") (.str "key") .fetchThrow).1 = emptyResult :=
  ⟨(C7_enrichment_never_fails Js.null (.str "key") .fetchThrow).1 (Or.inl (by decide)),
   (C7_enrichment_never_fails (.str "+15551234567") (.str "key") .fetchThrow).2 (by decide)⟩

/-- Claim C8, counterexample: when the `customer` parent object exists but
lacks a number while `variables.customer.number` holds one, the normalizer
resolves *no* number — the parent is selected first, so the claimed
path-wise fall-through to `variables.customer.number` does not happen. -/
theorem C8_counterexample :
    (okD (mapVapiEvent rawParentNoNumber)).getD "customer"
      = Js.obj [("name", .str "X")] ∧
    ((okD (mapVapiEvent rawParentNoNumber)).getD "customer").getD "number"
      = .undef ∧
    Js.undef ≠ Js.str "+15551234567" := by
  refine ⟨rfl, rfl, by decide⟩

/-- Claim C8 (amended): the customer number is resolved by first selecting
a customer *parent* object (first-truthy-wins over `customer`,
`variables.customer`, `variableValues.customer`) and then reading
`number`/`phone`/`phoneNumber` first-truthy-wins from that single parent;
an earlier parent that exists without a number masks a later parent's
number (`resolvedNumberSpec`). -/
theorem C8_number_resolution_amended (body : Js) (h1 : body ≠ .null)
    (h2 : body ≠ .undef) :
    ∃ v, mapVapiEvent body = .ok v ∧
      (v.getD "customer").getD "number" = resolvedNumberSpec body :=
  mapVapiEvent_customer_number (Js.notNU_of_ne h1 h2)

/-- Witness for `C8_number_resolution_amended` at the concrete
parent-without-number body. -/
theorem C8_number_resolution_witness :
    ∃ v, mapVapiEvent rawParentNoNumber = .ok v ∧
      (v.getD "customer").getD "number" = resolvedNumberSpec rawParentNoNumber :=
  C8_number_resolution_amended rawParentNoNumber (by decide) (by decide)

/-- Claim C9, counterexample: the webhook route does *not* answer 200 on
every request — a `null` JSON body makes `mapVapiEvent` throw, and the
route's catch block answers 500. -/
theorem C9_counterexample : vapiHookStatus Js.null = 500 := rfl

/-- Claim C9 (amended): the route responds 200 for every request whose body
is not `null`/`undefined` — normalization cannot throw there, the async
aggregation/delivery promise is fire-and-forget with its own catch, and
enrichment failure, missing delivery URL and delivery failure are all
swallowed; only a thrown normalization error (nullish body) produces
500. -/
theorem C9_always_200_amended (body : Js) (h1 : body ≠ .null)
    (h2 : body ≠ .undef) : vapiHookStatus body = 200 := by
  obtain ⟨v, hv⟩ := mapVapiEvent_ok (Js.notNU_of_ne h1 h2)
  simp [vapiHookStatus, hv]

/-- Witness for `C9_always_200_amended`: the empty object body gets 200. -/
theorem C9_always_200_witness : vapiHookStatus (Js.obj []) = 200 :=
  C9_always_200_amended (Js.obj []) (by decide) (by decide)

/-- Claim C10, counterexample: in the part_002 variant the dedup set does
not suppress every later event for an already-delivered call id — a second
`end-of-call-report` for `c9` that carries no `call.endedReason` skips the
dedup check (which is guarded by `hasEndedReason`) and is forwarded again
even though `c9` is already in the set. -/
theorem C10_counterexample :
    processedCallsHandler [Js.str "c9"] evDup = ([Js.str "c9"], true) ∧
    processedCallsId evDup = Js.str "c9" := by
  constructor <;> rfl

/-- Claim C10 (amended): the dedup sets only grow, and membership
suppresses re-delivery — unconditionally in the `sentCalls` variant (once a
truthy call id is in the set, no later request sequence ever forwards that
id again), but in the part_002 `processedCalls` variant only for events
that themselves carry an `endedReason` (`C10_counterexample` shows an
ended-reason-less duplicate being re-forwarded). -/
theorem C10_dedup_set_amended :
    (∀ (bodies sent : List Js) (cid : Js), cid.truthy = true → cid ∈ sent →
        cid ∉ (sentCallsRun sent bodies).2) ∧
    (∀ (sent : List Js) (body : Js), sent ⊆ (sentCallsHandler sent body).1) ∧
    (∀ (s : List Js) (ev : Js), s ⊆ (processedCallsHandler s ev).1) ∧
    (∀ (s : List Js) (ev : Js), processedCallsId ev ∈ s →
        part002HasEndedReason ev = true → (processedCallsHandler s ev).2 = false) :=
  ⟨sentCallsRun_no_redelivery, sentCallsHandler_subset, processedCallsHandler_subset,
   fun _ _ h1 h2 => processedCallsHandler_suppress h1 h2⟩

/-- Witness for `C10_dedup_set_amended`: with `c9` already in the
`sentCalls` set, a later end-of-call-report for `c9` is not forwarded. -/
theorem C10_dedup_set_witness :
    (Js.str "c9") ∉ (sentCallsRun [Js.str "c9"]
      [Js.obj [("message", Js.obj [("type", Js.str "end-of-call-report"),
        ("call", Js.obj [("id", Js.str "c9")])])]]).2 :=
  C10_dedup_set_amended.1 _ _ _ (by decide) (by decide)
